import Mathlib

/-! Shallow embedding of the Flask/Firestore backend in src/app.py.

The document store is modelled as total functions from document ids to
optional documents; the identity provider as a record of lookup
functions.  External primitives that the handlers call but whose
results the verified claims do not depend on (bcrypt hashing, strptime
date parsing, fresh auto-generated document ids) are passed to the
handler models as explicit parameters, so every theorem quantifies over
them.  Each handler model follows the corresponding Python function
line by line; points where the Python would raise an exception and fall
into the blanket catch-all clause are modelled as an early return with
status 500 together with the state mutated so far.  Response bodies are
reduced to their status codes plus the data fields a claim inspects;
notification documents created under auto-generated ids are collected
in a write log rather than stored back into the addressable state. -/

/-- Truthiness of an optional JSON string field, as the Python guards
evaluate it: a missing field and the empty string are both falsy. -/
def isTruthy : Option String → Bool
  | none => false
  | some s => !s.isEmpty

/-- Rendering of an optional value inside a Python f-string: a missing
value prints as the literal text None. -/
def optStr : Option String → String
  | some s => s
  | none => "None"

/-- Password rule encoded by the regex in create_user and
update_user_password: at least 10 characters, at least one decimal
digit, and at least one of the special characters listed in the
character class of the regex. -/
def passwordStrong (p : String) : Bool :=
  decide (10 ≤ p.length) && p.data.any (fun c => c.isDigit)
    && p.data.any (fun c => "@$!%*?&".data.contains c)

/-- Model of the Python str.lower call applied to the email, mapping
every character to its lower-case form (the claims only exercise ASCII
inputs). -/
def pyLower (s : String) : String := ⟨s.data.map Char.toLower⟩

/-- An entry of a connections list: uid of the peer plus the
denormalized display fields copied from the peer document. -/
structure ConnEntry where
  uid : String
  firstName : String
  surname : String
  email : String
  telephone : String
deriving DecidableEq

/-- A user document as written by create_user. -/
structure UserDoc where
  firstName : String
  surname : String
  telephone : String
  email : String
  uid : String
  connections : List ConnEntry
  passwordHash : String
deriving DecidableEq

/-- A connectionRequests document as written by
send_connection_request. -/
structure ConnReq where
  fromUserId : String
  toUserId : String
  status : String
deriving DecidableEq

/-- The fromUser payload embedded in some notifications; every field is
optional because different flows fill different subsets.  The empty
Python dict is modelled as the value none of the surrounding option. -/
structure FromUser where
  firstName : Option String := none
  surname : Option String := none
  email : Option String := none
  telephone : Option String := none
  uid : Option String := none
  username : Option String := none
deriving DecidableEq

/-- A notification document.  The field set is the union of the fields
written by the various flows; fields a flow does not write are none.
Server timestamps are not modelled. -/
structure Notif where
  ntype : String
  message : String
  status : String
  fromUser : Option FromUser := none
  connectionRequestId : Option String := none
  projectId : Option String := none
  projectName : Option String := none
  ownerId : Option String := none
  conversationId : Option String := none
  deadline : Option String := none
  changedBy : Option String := none
  newStatus : Option String := none
  removedBy : Option String := none
deriving DecidableEq

/-- A parsed calendar date, the value strptime with format Y-m-d would
produce; its internal composition is irrelevant to every claim. -/
abbrev Date := Nat × Nat × Nat

/-- A member summary stored in a project team list by
respond_project_invitation.  When the accepting user document is
missing, the Python dict contains only the uid key, so the display
fields are optional. -/
structure Member where
  uid : String
  firstName : Option String := none
  surname : Option String := none
deriving DecidableEq

/-- A project document as written by create_project and mutated by the
project endpoints.  The tasks payload is opaque JSON that no verified
claim inspects and is not modelled. -/
structure Project where
  projectName : String
  description : String
  deadline : Date
  ownerId : String
  team : List Member := []
  teamIds : List String := []
  status : Option String := none
deriving DecidableEq

/-- A chat message document written by send_chat_message. -/
structure Msg where
  senderId : String
  messageText : String
  read : Bool := false
deriving DecidableEq

/-- A comment document written by add_comment. -/
structure CommentDoc where
  userId : String
  username : String
  commentText : String
deriving DecidableEq

/-- Point update of a string-keyed map. -/
def fupd {α : Type} (f : String → α) (k : String) (v : α) : String → α :=
  fun x => if x = k then v else f x

/-- The Firestore state the handlers touch: users, connection requests,
projects, per-user keyed notification documents, and per-conversation
message lists. -/
structure DB where
  users : String → Option UserDoc
  connectionRequests : String → Option ConnReq
  projects : String → Option Project
  notifs : String → String → Option Notif
  conversations : String → List Msg

/-- The identity provider as the handlers use it: lookup by email,
existence of a uid, token verification, and the credential stored per
uid. -/
structure Auth where
  emailToUid : String → Option String
  uidExists : String → Bool
  verifyToken : String → Option String
  uidPassword : String → Option String

/-- Common handler output: HTTP status plus the log of notification
documents written under auto-generated ids, as pairs of recipient uid
and document. -/
structure HOut where
  status : Nat
  writes : List (String × Notif) := []

/-- Request body of create_user. -/
structure CreateUserIn where
  firstName : Option String := none
  surname : Option String := none
  telephone : Option String := none
  email : Option String := none
  password : Option String := none

/-- Response of create_user. -/
structure CreateOut where
  status : Nat
  newId : Option String := none

/-- Model of create_user.  The source reads data.get with no default
for email and immediately calls lower on it, so a missing email raises
AttributeError before the required-field guard runs; the catch-all
turns that into a 500. -/
def create_user (hashpw : String → String) (freshUid : String)
    (inp : CreateUserIn) (a : Auth) (db : DB) : CreateOut × Auth × DB :=
  match inp.email with
  | none => (⟨500, none⟩, a, db)
  | some e0 =>
    let email := pyLower e0
    if !(isTruthy inp.firstName && isTruthy inp.surname
          && !email.isEmpty && isTruthy inp.password) then (⟨400, none⟩, a, db)
    else
      let password := inp.password.getD ""
      if !(passwordStrong password) then (⟨400, none⟩, a, db)
      else
        match a.emailToUid email with
        | some _ => (⟨400, none⟩, a, db)
        | none =>
          let hashed := hashpw password
          let a' : Auth :=
            { a with
              emailToUid := fupd a.emailToUid email (some freshUid),
              uidExists := fun u => u == freshUid || a.uidExists u,
              uidPassword := fupd a.uidPassword freshUid (some password) }
          let doc : UserDoc :=
            { firstName := inp.firstName.getD "",
              surname := inp.surname.getD "", telephone := inp.telephone.getD "",
              email := email, uid := freshUid, connections := [],
              passwordHash := hashed }
          (⟨201, some freshUid⟩, a',
            { db with users := fupd db.users freshUid (some doc) })

/-- Request body of login. -/
structure LoginIn where
  idToken : Option String := none

/-- Response of login. -/
structure LoginOut where
  status : Nat
  uid : Option String := none
  firstName : Option String := none
  surname : Option String := none
  email : Option String := none
deriving DecidableEq

/-- Model of login.  The guard checks presence of the idToken key only;
verify_id_token raising on an invalid token is caught by the catch-all
as a 500; a missing user document yields an empty dict, so the success
path answers 200 with empty display fields. -/
def login (inp : LoginIn) (a : Auth) (db : DB) : LoginOut :=
  match inp.idToken with
  | none => ⟨400, none, none, none, none⟩
  | some t =>
    match a.verifyToken t with
    | none => ⟨500, none, none, none, none⟩
    | some uid =>
      match db.users uid with
      | some d => ⟨200, some uid, some d.firstName, some d.surname, some d.email⟩
      | none => ⟨200, some uid, some "", some "", some ""⟩

/-- Request body of update_user_password. -/
structure UpdPwIn where
  userId : Option String := none
  newPassword : Option String := none

/-- Model of update_user_password.  A uid unknown to the identity
provider makes auth.update_user raise, caught as 500.  The merge set on
a missing user document creates it; the partial document is
approximated with empty defaults, which no claim inspects. -/
def update_user_password (hashpw : String → String) (inp : UpdPwIn)
    (a : Auth) (db : DB) : Nat × Auth × DB :=
  if !(isTruthy inp.userId && isTruthy inp.newPassword) then (400, a, db)
  else
    let uid := inp.userId.getD ""
    let pw := inp.newPassword.getD ""
    if !(passwordStrong pw) then (400, a, db)
    else if !(a.uidExists uid) then (500, a, db)
    else
      let a' : Auth := { a with uidPassword := fupd a.uidPassword uid (some pw) }
      let newDoc : UserDoc :=
        match db.users uid with
        | some d => { d with passwordHash := hashpw pw }
        | none =>
          { firstName := "", surname := "", telephone := "",
            email := "", uid := "", connections := [], passwordHash := hashpw pw }
      (200, a', { db with users := fupd db.users uid (some newDoc) })

/-- Request body of update_user. -/
structure UpdUserIn where
  userId : Option String := none
  telephone : Option String := none
  newPassword : Option String := none
  firstName : Option String := none
  surname : Option String := none

/-- The document update assembled by update_user from the truthy
fields, with the freshly hashed password when one was supplied. -/
def applyUserUpd (inp : UpdUserIn) (hash? : Option String) (d : UserDoc) : UserDoc :=
  { d with
    firstName := if isTruthy inp.firstName then inp.firstName.getD "" else d.firstName,
    surname := if isTruthy inp.surname then inp.surname.getD "" else d.surname,
    telephone := if isTruthy inp.telephone then inp.telephone.getD "" else d.telephone,
    passwordHash := match hash? with | some h => h | none => d.passwordHash }

/-- Model of update_user.  The password branch performs no regex
strength validation of its own: the only check a new password meets is
the identity provider client-side minimum of six characters, which the
admin SDK enforces inside auth.update_user by raising ValueError for
anything shorter, before the request is sent and before the uid is
resolved; the catch-all turns that into a 500 with nothing changed.
A six-character-or-longer password is pushed to the identity provider
and its hash stored, regex-weak or not.  The provider update raising on
an unknown uid is caught as 500 before the document write; a document
update on a missing user raises after the provider was already
updated. -/
def update_user (hashpw : String → String) (inp : UpdUserIn)
    (a : Auth) (db : DB) : Nat × Auth × DB :=
  if !(isTruthy inp.userId) then (400, a, db)
  else
    let uid := inp.userId.getD ""
    let hasBasic := isTruthy inp.firstName || isTruthy inp.surname || isTruthy inp.telephone
    if isTruthy inp.newPassword then
      let pw := inp.newPassword.getD ""
      if pw.length < 6 then (500, a, db)
      else if !(a.uidExists uid) then (500, a, db)
      else
        let a' : Auth := { a with uidPassword := fupd a.uidPassword uid (some pw) }
        match db.users uid with
        | none => (500, a', db)
        | some d =>
          (200, a',
            { db with
              users := fupd db.users uid (some (applyUserUpd inp (some (hashpw pw)) d)) })
    else
      if !hasBasic then (200, a, db)
      else
        match db.users uid with
        | none => (500, a, db)
        | some d =>
          (200, a, { db with users := fupd db.users uid (some (applyUserUpd inp none d)) })

/-- Request body of respond_connection_request. -/
structure RespConnIn where
  requestId : Option String := none
  action : Option String := none

/-- The connections entry respond_connection_request builds for one
side: the uid of the peer plus display fields copied from the peer
document. -/
def entryFor (u : String) (d : UserDoc) : ConnEntry :=
  { uid := u, firstName := d.firstName, surname := d.surname,
    email := d.email, telephone := d.telephone }

/-- Model of respond_connection_request.  The request status is set to
the action, notifications of the recipient referencing the request are
deleted, and on accept each side appends the peer summary to its
connections list unless an entry with that uid already exists; each
append is written back individually.  The trailing response
notification goes to the original sender. -/
def respond_connection_request (inp : RespConnIn) (db : DB) : HOut × DB :=
  if !(isTruthy inp.requestId
        && (inp.action == some "accepted" || inp.action == some "rejected")) then
    (⟨400, []⟩, db)
  else
    let reqId := inp.requestId.getD ""
    let action := inp.action.getD ""
    match db.connectionRequests reqId with
    | none => (⟨404, []⟩, db)
    | some rq =>
      let fromU := rq.fromUserId
      let toU := rq.toUserId
      let db1 : DB :=
        { db with
          connectionRequests := fupd db.connectionRequests reqId (some { rq with status := action }) }
      let db2 : DB :=
        { db1 with
          notifs := fun u n =>
            match db1.notifs u n with
            | some nd =>
              if u == toU && nd.connectionRequestId == some reqId then none else some nd
            | none => none }
      let db3 : DB :=
        if action == "accepted" then
          match db2.users fromU, db2.users toU with
          | some fromData, some toData =>
            let fromConns := fromData.connections
            let toConns := toData.connections
            let dbA : DB :=
              if fromConns.any (fun c => c.uid == toU) then db2
              else
                { db2 with
                  users := fupd db2.users fromU
                    (some { fromData with connections := fromConns ++ [entryFor toU toData] }) }
            if toConns.any (fun c => c.uid == fromU) then dbA
            else
              { dbA with
                users := fupd dbA.users toU
                  (some { toData with connections := toConns ++ [entryFor fromU fromData] }) }
          | _, _ => db2
        else db2
      let respFrom : Option FromUser :=
        match db3.users toU with
        | some td =>
          some
            { firstName := some td.firstName, surname := some td.surname,
              email := some td.email, telephone := some td.telephone }
        | none => none
      let respNotif : Notif :=
        { ntype := "response",
          message := "Your connection request has been " ++ action ++ ".",
          status := "unread", fromUser := respFrom }
      (⟨200, [(fromU, respNotif)]⟩, db3)

/-- Request body of disconnect. -/
structure DisconnectIn where
  userId : Option String := none
  disconnectUserId : Option String := none

/-- Model of disconnect: both documents are fetched first; each
connections list is rebuilt with the other uid filtered out and written
back, in the source order. -/
def disconnect (inp : DisconnectIn) (db : DB) : Nat × DB :=
  if !(isTruthy inp.userId && isTruthy inp.disconnectUserId) then (400, db)
  else
    let a := inp.userId.getD ""
    let b := inp.disconnectUserId.getD ""
    match db.users a, db.users b with
    | some da, some dbDoc =>
      let newA := da.connections.filter (fun c => c.uid != b)
      let db1 : DB := { db with users := fupd db.users a (some { da with connections := newA }) }
      let newB := dbDoc.connections.filter (fun c => c.uid != a)
      let db2 : DB := { db1 with users := fupd db1.users b (some { dbDoc with connections := newB }) }
      (200, db2)
    | _, _ => (404, db)

/-- Request body of create_project. -/
structure CreateProjIn where
  projectName : Option String := none
  description : Option String := none
  tasksProvided : Bool := false
  deadline : Option String := none
  ownerId : Option String := none

/-- Model of create_project: validates the required fields and the
deadline format, then writes a fresh project with empty team and
teamIds. -/
def create_project (parseDate : String → Option Date) (freshPid : String)
    (inp : CreateProjIn) (db : DB) : CreateOut × DB :=
  if !(isTruthy inp.projectName && isTruthy inp.description
        && isTruthy inp.ownerId && isTruthy inp.deadline) then (⟨400, none⟩, db)
  else
    match parseDate (inp.deadline.getD "") with
    | none => (⟨400, none⟩, db)
    | some d =>
      let p : Project :=
        { projectName := inp.projectName.getD "",
          description := inp.description.getD "", deadline := d,
          ownerId := inp.ownerId.getD "", team := [], teamIds := [], status := none }
      (⟨201, some freshPid⟩, { db with projects := fupd db.projects freshPid (some p) })

/-- Request body of update_project.  The tasks payload itself is opaque
to every claim, so only its presence is modelled. -/
structure UpdProjIn where
  projectId : Option String := none
  projectName : Option String := none
  description : Option String := none
  tasksProvided : Bool := false
  deadline : Option String := none
  status : Option String := none
  requesterId : Option String := none

/-- Model of update_project.  When a status and a requester are
supplied, the fan-out recipients are the teamIds of the updated
document plus the owner when distinct from the requester, with the
requester discarded from the set.  The Python set is modelled as a
deduplicated list; its iteration order is unspecified in the source. -/
def update_project (parseDate : String → Option Date) (inp : UpdProjIn)
    (db : DB) : HOut × DB :=
  if !(isTruthy inp.projectId) then (⟨400, []⟩, db)
  else
    let pid := inp.projectId.getD ""
    match db.projects pid with
    | none => (⟨404, []⟩, db)
    | some curr =>
      let newDeadline? : Option (Option Date) :=
        if isTruthy inp.deadline then
          match parseDate (inp.deadline.getD "") with
          | some d => some (some d)
          | none => none
        else some none
      match newDeadline? with
      | none => (⟨400, []⟩, db)
      | some dl? =>
        let hasUpd := isTruthy inp.projectName || isTruthy inp.description
          || inp.tasksProvided || isTruthy inp.deadline || isTruthy inp.status
        if hasUpd then
          let p' : Project :=
            { curr with
              projectName := if isTruthy inp.projectName then inp.projectName.getD "" else curr.projectName,
              description := if isTruthy inp.description then inp.description.getD "" else curr.description,
              deadline := match dl? with | some d => d | none => curr.deadline,
              status := if isTruthy inp.status then some (inp.status.getD "") else curr.status }
          let db1 : DB := { db with projects := fupd db.projects pid (some p') }
          if isTruthy inp.status && isTruthy inp.requesterId then
            let requester := inp.requesterId.getD ""
            let updated := p'
            let requesterName :=
              match db1.users requester with
              | some rd => (rd.firstName ++ " " ++ rd.surname).trim
              | none => "A user"
            let base := updated.teamIds
              ++ (if !updated.ownerId.isEmpty && updated.ownerId != requester
                  then [updated.ownerId] else [])
            let recipients := base.dedup.filter (fun x => x != requester)
            let notif : Notif :=
              { ntype := "status-update",
                message := requesterName ++ " changed project " ++ updated.projectName
                  ++ " status to " ++ inp.status.getD "" ++ ".",
                status := "unread", projectId := some pid,
                projectName := some updated.projectName,
                changedBy := some requesterName, newStatus := some (inp.status.getD "") }
            (⟨200, recipients.map (fun u => (u, notif))⟩, db1)
          else (⟨200, []⟩, db1)
        else (⟨200, []⟩, db)

/-- Request body of respond_project_invitation. -/
structure RespInvIn where
  invitationId : Option String := none
  action : Option String := none
  userId : Option String := none

/-- Model of respond_project_invitation.  The invitation notification
is deleted first.  On accept, a missing projectId in the notification
makes the document path constructor raise, and a missing project
document makes the update raise; both are caught as 500 after the
notification was already deleted.  The team update is an ArrayUnion:
each value is appended only when not already an element. -/
def respond_project_invitation (inp : RespInvIn) (db : DB) : HOut × DB :=
  if !(isTruthy inp.invitationId && isTruthy inp.action && isTruthy inp.userId) then
    (⟨400, []⟩, db)
  else
    let invId := inp.invitationId.getD ""
    let action := inp.action.getD ""
    let uid := inp.userId.getD ""
    if !(action == "accepted" || action == "declined") then (⟨400, []⟩, db)
    else
      match db.notifs uid invId with
      | none => (⟨404, []⟩, db)
      | some nd =>
        let pName := optStr nd.projectName
        let ownerId := nd.ownerId.getD ""
        let db1 : DB :=
          { db with
            notifs := fun u n => if u == uid && n == invId then none else db.notifs u n }
        if action == "accepted" then
          match nd.projectId with
          | none => (⟨500, []⟩, db1)
          | some pid =>
            let newMember : Member :=
              match db1.users uid with
              | some ad =>
                { uid := uid, firstName := some ad.firstName, surname := some ad.surname }
              | none => { uid := uid }
            match db1.projects pid with
            | none => (⟨500, []⟩, db1)
            | some p =>
              let p' : Project :=
                { p with
                  team := if newMember ∈ p.team then p.team else p.team ++ [newMember],
                  teamIds := if uid ∈ p.teamIds then p.teamIds else p.teamIds ++ [uid] }
              let db2 : DB := { db1 with projects := fupd db1.projects pid (some p') }
              let acceptedFirst := match db1.users uid with
                | some ad => ad.firstName
                | none => "Someone"
              let acceptedSurname := match db1.users uid with
                | some ad => ad.surname
                | none => ""
              let ownerNotif : Notif :=
                { ntype := "project-invitation-response",
                  message := acceptedFirst ++ " " ++ acceptedSurname
                    ++ " has accepted your invitation to the project " ++ pName ++ ".",
                  fromUser :=
                    some { firstName := some acceptedFirst, surname := some acceptedSurname },
                  status := "unread" }
              (⟨200, [(ownerId, ownerNotif)]⟩, db2)
        else
          let ownerNotif : Notif :=
            { ntype := "project-invitation-response",
              message := uid ++ " has declined your invitation to the project "
                ++ pName ++ ".",
              status := "unread" }
          (⟨200, [(ownerId, ownerNotif)]⟩, db1)

/-- Request body of leave_project. -/
structure LeaveProjIn where
  projectId : Option String := none
  userId : Option String := none

/-- Model of leave_project.  The owner cannot leave; otherwise both
team and teamIds are rebuilt without the leaver, and the remaining
members, owner included, are notified.  The Python set is modelled as a
deduplicated list. -/
def leave_project (inp : LeaveProjIn) (db : DB) : HOut × DB :=
  if !(isTruthy inp.projectId && isTruthy inp.userId) then (⟨400, []⟩, db)
  else
    let pid := inp.projectId.getD ""
    let uid := inp.userId.getD ""
    match db.projects pid with
    | none => (⟨404, []⟩, db)
    | some p =>
      if uid == p.ownerId then (⟨403, []⟩, db)
      else
        let newTeam := p.team.filter (fun m => m.uid != uid)
        let newTeamIds := p.teamIds.filter (fun x => x != uid)
        let db1 : DB :=
          { db with
            projects := fupd db.projects pid
              (some { p with team := newTeam, teamIds := newTeamIds }) }
        let remaining := ((if !p.ownerId.isEmpty then [p.ownerId] else []) ++ newTeamIds).dedup
        let leavingName :=
          match db1.users uid with
          | some d => (d.firstName ++ " " ++ d.surname).trim
          | none => "A user"
        let notif : Notif :=
          { ntype := "project-leave",
            message := "User " ++ leavingName ++ " left project " ++ p.projectName ++ ".",
            status := "unread", projectId := some pid, projectName := some p.projectName }
        (⟨200, remaining.map (fun u => (u, notif))⟩, db1)

/-- Request body of add_comment. -/
structure AddCommentIn where
  projectId : Option String := none
  userId : Option String := none
  commentText : Option String := none

/-- Response of add_comment: status, the comment document written under
an auto-generated id, and the notification fan-out log. -/
structure AddCommentOut where
  status : Nat
  comment : Option CommentDoc := none
  writes : List (String × Notif) := []

/-- Model of add_comment.  Recipients are the owner plus the teamIds,
with the commenting user removed when present.  The comments
subcollection is written only under auto-generated ids, so the comment
appears in the output instead of the addressable state. -/
def add_comment (inp : AddCommentIn) (db : DB) : AddCommentOut :=
  if !(isTruthy inp.projectId && isTruthy inp.userId && isTruthy inp.commentText) then
    ⟨400, none, []⟩
  else
    let pid := inp.projectId.getD ""
    let uid := inp.userId.getD ""
    match db.projects pid with
    | none => ⟨404, none, []⟩
    | some p =>
      let username := match db.users uid with
        | some d => (d.firstName ++ " " ++ d.surname).trim
        | none => ""
      let c : CommentDoc := ⟨uid, username, inp.commentText.getD ""⟩
      let base := (if !p.ownerId.isEmpty then [p.ownerId] else []) ++ p.teamIds
      let recipients := base.dedup.filter (fun x => x != uid)
      let notif : Notif :=
        { ntype := "comment",
          message := "User " ++ username ++ " commented on project " ++ p.projectName,
          status := "unread",
          fromUser := some { uid := some uid, username := some username },
          projectId := some pid, projectName := some p.projectName }
      ⟨200, some c, recipients.map (fun u => (u, notif))⟩

/-- Request body of remove_collaborator. -/
structure RemoveCollabIn where
  projectId : Option String := none
  collaboratorId : Option String := none
  ownerId : Option String := none

/-- Model of remove_collaborator: both team and teamIds are rebuilt
without the collaborator, who then receives a removal notification. -/
def remove_collaborator (inp : RemoveCollabIn) (db : DB) : HOut × DB :=
  if !(isTruthy inp.projectId && isTruthy inp.collaboratorId && isTruthy inp.ownerId) then
    (⟨400, []⟩, db)
  else
    let pid := inp.projectId.getD ""
    let collab := inp.collaboratorId.getD ""
    let owner := inp.ownerId.getD ""
    match db.projects pid with
    | none => (⟨404, []⟩, db)
    | some p =>
      let newTeam := p.team.filter (fun m => m.uid != collab)
      let newTeamIds := p.teamIds.filter (fun x => x != collab)
      let db1 : DB :=
        { db with
          projects := fupd db.projects pid
            (some { p with team := newTeam, teamIds := newTeamIds }) }
      let ownerName :=
        match db1.users owner with
        | some d => (d.firstName ++ " " ++ d.surname).trim
        | none => ""
      let notif : Notif :=
        { ntype := "project-removal",
          message := "You were removed from project " ++ p.projectName,
          status := "unread", removedBy := some ownerName }
      (⟨200, [(collab, notif)]⟩, db1)

/-- The canonical conversation identifier: the two participant ids
sorted and joined with a dash, exactly the join-sorted expression of
send_chat_message and get_chat_messages. -/
def conversationId (a b : String) : String :=
  if a ≤ b then a ++ "-" ++ b else b ++ "-" ++ a

/-- Request body of send_chat_message. -/
structure SendChatIn where
  senderId : Option String := none
  receiverId : Option String := none
  messageText : Option String := none

/-- Response of send_chat_message, recording the conversation id the
handler computed. -/
structure SendChatOut where
  status : Nat
  convId : Option String := none
  writes : List (String × Notif) := []

/-- Model of send_chat_message: the message is appended to the
conversation keyed by the sorted join of the two participant ids and a
chat notification goes to the receiver. -/
def send_chat_message (inp : SendChatIn) (db : DB) : SendChatOut × DB :=
  if !(isTruthy inp.senderId && isTruthy inp.receiverId && isTruthy inp.messageText) then
    (⟨400, none, []⟩, db)
  else
    let s := inp.senderId.getD ""
    let r := inp.receiverId.getD ""
    let t := inp.messageText.getD ""
    let cid := conversationId s r
    let m : Msg := { senderId := s, messageText := t, read := false }
    let db1 : DB :=
      { db with
        conversations := fupd db.conversations cid (db.conversations cid ++ [m]) }
    let notif : Notif :=
      { ntype := "chat",
        message := "You have a new message from " ++ s ++ ".",
        fromUser := none, status := "unread", conversationId := some cid }
    (⟨200, some cid, [(r, notif)]⟩, db1)

/-- Request body of get_chat_messages. -/
structure GetChatIn where
  conversationId : Option String := none
  userId : Option String := none
  connectionId : Option String := none

/-- Response of get_chat_messages, recording the conversation id the
handler resolved. -/
structure GetChatOut where
  status : Nat
  convId : Option String := none
  messages : List Msg := []
deriving DecidableEq

/-- Model of get_chat_messages: a truthy conversationId is used
directly, otherwise it is derived as the sorted join of userId and
connectionId, both of which must then be truthy. -/
def get_chat_messages (inp : GetChatIn) (db : DB) : GetChatOut :=
  if isTruthy inp.conversationId then
    let cid := inp.conversationId.getD ""
    ⟨200, some cid, db.conversations cid⟩
  else
    if isTruthy inp.userId && isTruthy inp.connectionId then
      let cid := conversationId (inp.userId.getD "") (inp.connectionId.getD "")
      ⟨200, some cid, db.conversations cid⟩
    else ⟨400, none, []⟩

/-- Append-if-absent summary of the accept branch of
respond_connection_request, used to characterize its effect on one
connections list. -/
def addIfAbsent (target : String) (e : ConnEntry) (l : List ConnEntry) : List ConnEntry :=
  if l.any (fun c => c.uid == target) then l else l ++ [e]

/-- The team-and-teamIds invariant the handlers actually maintain:
teamIds is duplicate-free and holds exactly the uids occurring in the
team list. -/
def TeamInv (p : Project) : Prop :=
  p.teamIds.Nodup ∧ (∀ x ∈ p.teamIds, x ∈ p.team.map Member.uid)
    ∧ (∀ x ∈ p.team.map Member.uid, x ∈ p.teamIds)

instance (p : Project) : Decidable (TeamInv p) := by
  unfold TeamInv; infer_instance

/-! Concrete sample states used by the witness and counterexample
theorems below. -/

/-- The empty document store. -/
def emptyDB : DB := ⟨fun _ => none, fun _ => none, fun _ => none, fun _ _ => none, fun _ => []⟩

/-- An identity provider with no accounts. -/
def emptyAuth : Auth := ⟨fun _ => none, fun _ => false, fun _ => none, fun _ => none⟩

/-- Sample user documents. -/
def uAnn : UserDoc := ⟨"Ann", "Lee", "1", "ann@x.com", "uA", [], "hA"⟩

/-- Second sample user document. -/
def uBob : UserDoc := ⟨"Bob", "Kay", "2", "bob@x.com", "uB", [], "hB"⟩

/-- Third sample user document, with display name Cid Bee. -/
def uCid : UserDoc := ⟨"Cid", "Bee", "3", "c@x.com", "u1", [], "h"⟩

/-- A pending connection request from uA to uB. -/
def reqAB : ConnReq := ⟨"uA", "uB", "pending"⟩

/-- State with users uA and uB and the pending request r1. -/
def dbConn : DB :=
  { emptyDB with
    users := fun k => if k = "uA" then some uAnn else if k = "uB" then some uBob else none,
    connectionRequests := fun k => if k = "r1" then some reqAB else none }

/-- A project invitation notification referencing project p1 owned by own. -/
def invNotif1 : Notif :=
  { ntype := "project-invitation", message := "m", status := "unread",
    projectId := some "p1", projectName := some "P", ownerId := some "own" }

/-- A project whose team already holds a member summary for u1 written
before the user document was renamed to Cid. -/
def projStale : Project :=
  ⟨"P", "D", (2024, 1, 1), "own", [⟨"u1", some "Ann", some "Bee"⟩], ["u1"], none⟩

/-- State for the stale-summary scenario: project p1 with the old
summary of u1, the renamed user document, and a second invitation. -/
def dbStale : DB :=
  { emptyDB with
    users := fun k => if k = "u1" then some uCid else none,
    projects := fun k => if k = "p1" then some projStale else none,
    notifs := fun u n => if u = "u1" ∧ n = "inv1" then some invNotif1 else none }

/-- State holding the invitation for u1 but no project document p1. -/
def dbNoProj : DB :=
  { emptyDB with
    users := fun k => if k = "u1" then some uCid else none,
    notifs := fun u n => if u = "u1" ∧ n = "inv1" then some invNotif1 else none }

/-- An empty project p1 owned by own, plus the invitation, for the
accept witness. -/
def projP : Project := ⟨"P", "D", (2024, 1, 1), "own", [], [], none⟩

/-- State with the empty project and the invitation for u1. -/
def dbInv : DB :=
  { emptyDB with
    users := fun k => if k = "u1" then some uCid else none,
    projects := fun k => if k = "p1" then some projP else none,
    notifs := fun u n => if u = "u1" ∧ n = "inv1" then some invNotif1 else none }

/-- Identity provider knowing exactly the uid u1. -/
def authPw : Auth := ⟨fun _ => none, fun u => u == "u1", fun _ => none, fun _ => none⟩

/-- State with just the user document u1. -/
def dbPw : DB := { emptyDB with users := fun k => if k = "u1" then some uCid else none }

/-- Identity provider that accepts exactly the token tok as uid u9. -/
def auth10 : Auth :=
  ⟨fun _ => none, fun _ => false, fun t => if t = "tok" then some "u9" else none, fun _ => none⟩

/-- State holding a user document for uid u9. -/
def db10 : DB := { emptyDB with users := fun k => if k = "u9" then some uCid else none }

/-- A project with two team members m1 and v, owned by own. -/
def proj7 : Project :=
  ⟨"P", "D", (2024, 1, 1), "own", [⟨"m1", none, none⟩, ⟨"v", none, none⟩], ["m1", "v"], none⟩

/-- State with the two-member project p1. -/
def db7 : DB := { emptyDB with projects := fun k => if k = "p1" then some proj7 else none }

/-! Shared helper lemmas. -/

theorem fupd_self {α : Type} (f : String → α) (k : String) (v : α) : fupd f k v k = v := by
  simp [fupd]

theorem fupd_ne {α : Type} (f : String → α) {k x : String} (v : α) (h : x ≠ k) :
    fupd f k v x = f x := by
  simp [fupd, h]

theorem isEmpty_false_of_ne {s : String} (h : s ≠ "") : s.isEmpty = false := by
  rw [Bool.eq_false_iff]
  simpa [String.isEmpty_iff] using h

theorem addIfAbsent_any {t : String} (e : ConnEntry) (l : List ConnEntry) (he : e.uid = t) :
    (addIfAbsent t e l).any (fun c => c.uid == t) = true := by
  unfold addIfAbsent
  split
  · assumption
  · simp [List.any_append, he]

theorem addIfAbsent_of_any {t : String} (e : ConnEntry) {l : List ConnEntry}
    (h : l.any (fun c => c.uid == t) = true) : addIfAbsent t e l = l := by
  unfold addIfAbsent
  simp [h]

theorem addIfAbsent_countP {t : String} {e : ConnEntry} {l : List ConnEntry} (he : e.uid = t)
    (h : l.countP (fun c => c.uid == t) ≤ 1) :
    (addIfAbsent t e l).countP (fun c => c.uid == t) ≤ 1 := by
  unfold addIfAbsent
  split
  · exact h
  · rename_i hna
    have h0 : l.countP (fun c => c.uid == t) = 0 := by
      rw [List.countP_eq_zero]
      intro a ha hat
      exact hna (List.any_eq_true.mpr ⟨a, ha, hat⟩)
    rw [List.countP_append, h0]
    simp [he]

/-! Claim theorems. -/

/-- C4: the conversation identifier computed by send_chat_message and
get_chat_messages, the sorted pair of participant ids joined with a
dash, is commutative for all distinct user ids. -/
theorem C4_conversationId_comm (A B : String) (h : A ≠ B) :
    conversationId A B = conversationId B A := by
  unfold conversationId
  split_ifs with h1 h2 h2
  · exact absurd (le_antisymm h1 h2) h
  · rfl
  · rfl
  · rcases le_total A B with hc | hc
    · exact absurd hc h1
    · exact absurd hc h2

/-- C4 witness: the commutativity theorem applied at two concrete
distinct ids. -/
theorem C4_conversationId_comm_witness :
    conversationId "uA" "uB" = conversationId "uB" "uA" :=
  C4_conversationId_comm "uA" "uB" (by decide)

/-- C8: evaluating create_user on a body whose email field is missing
while the other required fields are present yields a 500 with no
storage or identity-provider change, because the source lowercases the
absent email before its own required-field check can answer 400. -/
theorem C8_create_user_missing_email_500 (hashpw : String → String) (freshUid : String)
    (a : Auth) (db : DB) :
    create_user hashpw freshUid ⟨some "Ann", some "Lee", none, none, some "Abcdef1234!"⟩ a db
      = (⟨500, none⟩, a, db) := rfl

/-- C10 counterexample: a valid token for uid u9 whose user document is
absent is answered with 200 and empty display fields, not with the 404
the claim requires. -/
theorem C10_login_counterexample :
    auth10.verifyToken "tok" = some "u9" ∧ emptyDB.users "u9" = none ∧
    (login ⟨some "tok"⟩ auth10 emptyDB).status = 200 ∧
    (login ⟨some "tok"⟩ auth10 emptyDB).status ≠ 404 := by
  refine ⟨rfl, rfl, rfl, ?_⟩
  decide

/-- C10 amended: login answers 400 only when the idToken key is absent;
an invalid token raises inside the handler and is answered 500, not
401; a missing user document is answered 200 with empty name fields,
not 404; a found user document is answered 200 with uid, firstName and
surname. -/
theorem C10_login_behavior (a : Auth) (db : DB) (t u : String) (d : UserDoc) :
    login ⟨none⟩ a db = ⟨400, none, none, none, none⟩ ∧
    (a.verifyToken t = none → login ⟨some t⟩ a db = ⟨500, none, none, none, none⟩) ∧
    (a.verifyToken t = some u → db.users u = none →
      login ⟨some t⟩ a db = ⟨200, some u, some "", some "", some ""⟩) ∧
    (a.verifyToken t = some u → db.users u = some d →
      login ⟨some t⟩ a db = ⟨200, some u, some d.firstName, some d.surname, some d.email⟩) := by
  refine ⟨rfl, ?_, ?_, ?_⟩
  · intro h
    simp [login, h]
  · intro h1 h2
    simp [login, h1, h2]
  · intro h1 h2
    simp [login, h1, h2]

/-- C10 witness: the amended login behavior at concrete inputs covering
all four branches. -/
theorem C10_login_behavior_witness :
    login ⟨none⟩ auth10 emptyDB = ⟨400, none, none, none, none⟩ ∧
    login ⟨some "bad"⟩ auth10 emptyDB = ⟨500, none, none, none, none⟩ ∧
    login ⟨some "tok"⟩ auth10 emptyDB = ⟨200, some "u9", some "", some "", some ""⟩ ∧
    login ⟨some "tok"⟩ auth10 db10 = ⟨200, some "u9", some "Cid", some "Bee", some "c@x.com"⟩ := by
  refine ⟨(C10_login_behavior auth10 emptyDB "t" "u" uCid).1,
    (C10_login_behavior auth10 emptyDB "bad" "u" uCid).2.1 (by decide),
    (C10_login_behavior auth10 emptyDB "tok" "u9" uCid).2.2.1 (by decide) (by decide),
    (C10_login_behavior auth10 db10 "tok" "u9" uCid).2.2.2 (by decide) (by decide)⟩

/-- C9 counterexample: the combined update_user endpoint accepts the
regex-weak eight-character password abcdefgh, which satisfies the
identity provider minimum of six characters but has no digit and no
special character; it answers 200, pushes the weak credential to the
identity provider and overwrites the stored hash, refuting the claim
that all three password paths reject regex-weak passwords with 400. -/
theorem C9_update_user_counterexample :
    passwordStrong "abcdefgh" = false ∧
    (update_user (fun s => "H" ++ s) ⟨some "u1", none, some "abcdefgh", none, none⟩ authPw dbPw).1 = 200 ∧
    ((update_user (fun s => "H" ++ s) ⟨some "u1", none, some "abcdefgh", none, none⟩ authPw dbPw).2.2.users "u1").map
      UserDoc.passwordHash = some "Habcdefgh" ∧
    (dbPw.users "u1").map UserDoc.passwordHash = some "h" ∧
    (update_user (fun s => "H" ++ s) ⟨some "u1", none, some "abcdefgh", none, none⟩ authPw dbPw).2.1.uidPassword "u1"
      = some "abcdefgh" := by
  refine ⟨by decide, rfl, by decide, by decide, by decide⟩

/-- C9 amended: the regex strength rule is enforced, with a 400 and no
identity-provider or store change, by create_user and by
update_user_password; the combined update_user endpoint applies no
regex check, and a password below the provider minimum of six
characters only fails inside auth.update_user, surfacing as 500 with
nothing changed. -/
theorem C9_password_rule_enforced (hashpw : String → String) (freshUid : String)
    (fn sn em pw uid pws : String) (tel : Option String) (a : Auth) (db : DB)
    (hfn : fn ≠ "") (hsn : sn ≠ "") (hem : pyLower em ≠ "") (hpw : pw ≠ "")
    (huid : uid ≠ "") (hweak : passwordStrong pw = false)
    (hpws : pws ≠ "") (hshort : pws.length < 6) :
    create_user hashpw freshUid ⟨some fn, some sn, tel, some em, some pw⟩ a db
      = (⟨400, none⟩, a, db) ∧
    update_user_password hashpw ⟨some uid, some pw⟩ a db = (400, a, db) ∧
    update_user hashpw ⟨some uid, none, some pws, none, none⟩ a db = (500, a, db) := by
  refine ⟨?_, ?_, ?_⟩
  · simp [create_user, isTruthy, isEmpty_false_of_ne, hfn, hsn, hem, hpw, hweak]
  · simp [update_user_password, isTruthy, isEmpty_false_of_ne, huid, hpw, hweak]
  · simp [update_user, isTruthy, isEmpty_false_of_ne, huid, hpws, hshort]

/-- C9 witness: the amended rule applied at a concrete state, with the
regex-weak password abc rejected 400 by both regex-checked endpoints
and rejected 500 by the provider minimum inside update_user. -/
theorem C9_password_rule_enforced_witness :
    create_user (fun s => "H" ++ s) "f1" ⟨some "Ann", some "Lee", none, some "a@X.com", some "abc"⟩ authPw dbPw
      = (⟨400, none⟩, authPw, dbPw) ∧
    update_user_password (fun s => "H" ++ s) ⟨some "u1", some "abc"⟩ authPw dbPw = (400, authPw, dbPw) ∧
    update_user (fun s => "H" ++ s) ⟨some "u1", none, some "abc", none, none⟩ authPw dbPw
      = (500, authPw, dbPw) :=
  C9_password_rule_enforced (fun s => "H" ++ s) "f1" "Ann" "Lee" "a@X.com" "abc" "u1" "abc" none
    authPw dbPw (by decide) (by decide) (by decide) (by decide) (by decide) (by decide)
    (by decide) (by decide)

/-- Characterization of the accept branch of
respond_connection_request: it answers 200, sets the request status to
accepted, and applies the append-if-absent update to both connections
lists. -/
theorem respond_accept_spec (db : DB) (reqId : String) (rq : ConnReq) (fd td : UserDoc)
    (hreq : reqId ≠ "") (hr : db.connectionRequests reqId = some rq)
    (hft : rq.fromUserId ≠ rq.toUserId)
    (hf : db.users rq.fromUserId = some fd) (ht : db.users rq.toUserId = some td) :
    (respond_connection_request ⟨some reqId, some "accepted"⟩ db).1.status = 200 ∧
    (respond_connection_request ⟨some reqId, some "accepted"⟩ db).2.users rq.fromUserId
      = some { fd with connections := addIfAbsent rq.toUserId (entryFor rq.toUserId td) fd.connections } ∧
    (respond_connection_request ⟨some reqId, some "accepted"⟩ db).2.users rq.toUserId
      = some { td with connections := addIfAbsent rq.fromUserId (entryFor rq.fromUserId fd) td.connections } ∧
    (respond_connection_request ⟨some reqId, some "accepted"⟩ db).2.connectionRequests reqId
      = some { rq with status := "accepted" } := by
  have hie : reqId.isEmpty = false := isEmpty_false_of_ne hreq
  have hft' : rq.toUserId ≠ rq.fromUserId := Ne.symm hft
  by_cases h1 : fd.connections.any (fun c => c.uid == rq.toUserId) = true <;>
    by_cases h2 : td.connections.any (fun c => c.uid == rq.fromUserId) = true <;>
      simp [respond_connection_request, isTruthy, hie, hr, hf, ht, h1, h2, addIfAbsent,
        fupd, hft, hft', entryFor]

/-- C1: for every connection request accepted via
respond_connection_request when both user documents exist, afterwards
the sender connections list holds an entry with the recipient uid and
the recipient connections list holds an entry with the sender uid. -/
theorem C1_accept_connections_symmetric (db : DB) (reqId : String) (rq : ConnReq)
    (fd td : UserDoc) (hreq : reqId ≠ "") (hr : db.connectionRequests reqId = some rq)
    (hft : rq.fromUserId ≠ rq.toUserId)
    (hf : db.users rq.fromUserId = some fd) (ht : db.users rq.toUserId = some td) :
    (respond_connection_request ⟨some reqId, some "accepted"⟩ db).1.status = 200 ∧
    ((respond_connection_request ⟨some reqId, some "accepted"⟩ db).2.users rq.fromUserId).map
      (fun d => d.connections.any (fun c => c.uid == rq.toUserId)) = some true ∧
    ((respond_connection_request ⟨some reqId, some "accepted"⟩ db).2.users rq.toUserId).map
      (fun d => d.connections.any (fun c => c.uid == rq.fromUserId)) = some true := by
  obtain ⟨hs, hfrom, hto, -⟩ := respond_accept_spec db reqId rq fd td hreq hr hft hf ht
  refine ⟨hs, ?_, ?_⟩
  · rw [hfrom]
    simpa using addIfAbsent_any (entryFor rq.toUserId td) fd.connections rfl
  · rw [hto]
    simpa using addIfAbsent_any (entryFor rq.fromUserId fd) td.connections rfl

/-- C1 witness: the symmetry theorem applied to the concrete state with
users uA and uB and the pending request r1. -/
theorem C1_accept_connections_symmetric_witness :
    (respond_connection_request ⟨some "r1", some "accepted"⟩ dbConn).1.status = 200 ∧
    ((respond_connection_request ⟨some "r1", some "accepted"⟩ dbConn).2.users "uA").map
      (fun d => d.connections.any (fun c => c.uid == "uB")) = some true ∧
    ((respond_connection_request ⟨some "r1", some "accepted"⟩ dbConn).2.users "uB").map
      (fun d => d.connections.any (fun c => c.uid == "uA")) = some true :=
  C1_accept_connections_symmetric dbConn "r1" reqAB uAnn uBob (by decide) (by decide)
    (by decide) (by decide) (by decide)

/-- C2: accepting the same request twice leaves both connections lists
exactly as after the first accept, and after one accept each list holds
at most one entry for the peer uid, given it held at most one before. -/
theorem C2_accept_idempotent (db : DB) (reqId : String) (rq : ConnReq) (fd td : UserDoc)
    (hreq : reqId ≠ "") (hr : db.connectionRequests reqId = some rq)
    (hft : rq.fromUserId ≠ rq.toUserId)
    (hf : db.users rq.fromUserId = some fd) (ht : db.users rq.toUserId = some td)
    (hcf : fd.connections.countP (fun c => c.uid == rq.toUserId) ≤ 1)
    (hct : td.connections.countP (fun c => c.uid == rq.fromUserId) ≤ 1) :
    (respond_connection_request ⟨some reqId, some "accepted"⟩
        (respond_connection_request ⟨some reqId, some "accepted"⟩ db).2).2.users rq.fromUserId
      = (respond_connection_request ⟨some reqId, some "accepted"⟩ db).2.users rq.fromUserId ∧
    (respond_connection_request ⟨some reqId, some "accepted"⟩
        (respond_connection_request ⟨some reqId, some "accepted"⟩ db).2).2.users rq.toUserId
      = (respond_connection_request ⟨some reqId, some "accepted"⟩ db).2.users rq.toUserId ∧
    ((respond_connection_request ⟨some reqId, some "accepted"⟩ db).2.users rq.fromUserId).map
      (fun d => decide (d.connections.countP (fun c => c.uid == rq.toUserId) ≤ 1)) = some true ∧
    ((respond_connection_request ⟨some reqId, some "accepted"⟩ db).2.users rq.toUserId).map
      (fun d => decide (d.connections.countP (fun c => c.uid == rq.fromUserId) ≤ 1)) = some true := by
  obtain ⟨hs, hfrom, hto, hreqs⟩ := respond_accept_spec db reqId rq fd td hreq hr hft hf ht
  obtain ⟨hs2, hfrom2, hto2, -⟩ := respond_accept_spec
    (respond_connection_request ⟨some reqId, some "accepted"⟩ db).2 reqId
    { rq with status := "accepted" }
    { fd with connections := addIfAbsent rq.toUserId (entryFor rq.toUserId td) fd.connections }
    { td with connections := addIfAbsent rq.fromUserId (entryFor rq.fromUserId fd) td.connections }
    hreq hreqs hft hfrom hto
  have hanyf : (addIfAbsent rq.toUserId (entryFor rq.toUserId td) fd.connections).any
      (fun c => c.uid == rq.toUserId) = true :=
    addIfAbsent_any (entryFor rq.toUserId td) fd.connections rfl
  have hanyt : (addIfAbsent rq.fromUserId (entryFor rq.fromUserId fd) td.connections).any
      (fun c => c.uid == rq.fromUserId) = true :=
    addIfAbsent_any (entryFor rq.fromUserId fd) td.connections rfl
  refine ⟨?_, ?_, ?_, ?_⟩
  · rw [hfrom2, hfrom]
    rw [addIfAbsent_of_any _ hanyf]
  · rw [hto2, hto]
    rw [addIfAbsent_of_any _ hanyt]
  · rw [hfrom]
    simpa using @addIfAbsent_countP rq.toUserId (entryFor rq.toUserId td) fd.connections rfl hcf
  · rw [hto]
    simpa using @addIfAbsent_countP rq.fromUserId (entryFor rq.fromUserId fd) td.connections rfl hct

/-- C2 witness: the idempotence theorem applied to the concrete state
with users uA and uB and the pending request r1. -/
theorem C2_accept_idempotent_witness :
    (respond_connection_request ⟨some "r1", some "accepted"⟩
        (respond_connection_request ⟨some "r1", some "accepted"⟩ dbConn).2).2.users "uA"
      = (respond_connection_request ⟨some "r1", some "accepted"⟩ dbConn).2.users "uA" ∧
    (respond_connection_request ⟨some "r1", some "accepted"⟩
        (respond_connection_request ⟨some "r1", some "accepted"⟩ dbConn).2).2.users "uB"
      = (respond_connection_request ⟨some "r1", some "accepted"⟩ dbConn).2.users "uB" ∧
    ((respond_connection_request ⟨some "r1", some "accepted"⟩ dbConn).2.users "uA").map
      (fun d => decide (d.connections.countP (fun c => c.uid == "uB") ≤ 1)) = some true ∧
    ((respond_connection_request ⟨some "r1", some "accepted"⟩ dbConn).2.users "uB").map
      (fun d => decide (d.connections.countP (fun c => c.uid == "uA") ≤ 1)) = some true :=
  C2_accept_idempotent dbConn "r1" reqAB uAnn uBob (by decide) (by decide) (by decide)
    (by decide) (by decide) (by decide) (by decide)

/-- C3: disconnect on two existing user documents answers 200 whatever
the prior lists contained, and afterwards neither connections list
holds an entry with the other uid. -/
theorem C3_disconnect_removes_both (db : DB) (a b : String) (da dbDoc : UserDoc)
    (ha : a ≠ "") (hb : b ≠ "")
    (hda : db.users a = some da) (hdb : db.users b = some dbDoc) :
    (disconnect ⟨some a, some b⟩ db).1 = 200 ∧
    ((disconnect ⟨some a, some b⟩ db).2.users a).map
      (fun d => d.connections.any (fun c => c.uid == b)) = some false ∧
    ((disconnect ⟨some a, some b⟩ db).2.users b).map
      (fun d => d.connections.any (fun c => c.uid == a)) = some false := by
  have hea := isEmpty_false_of_ne ha
  have heb := isEmpty_false_of_ne hb
  have hfil : ∀ (l : List ConnEntry) (x : String),
      (l.filter (fun c => c.uid != x)).any (fun c => c.uid == x) = false := by
    intro l x
    rw [Bool.eq_false_iff]
    intro hcon
    obtain ⟨c, hcmem, hc⟩ := List.any_eq_true.mp hcon
    rw [List.mem_filter] at hcmem
    exact absurd (by simpa using hc) (by simpa using hcmem.2)
  by_cases hab : a = b
  · subst hab
    simp [disconnect, isTruthy, hea, hda, fupd, hfil]
  · simp [disconnect, isTruthy, hea, heb, hda, hdb, fupd, hab, Ne.symm hab, hfil]

/-- C3 witness: the disconnect theorem applied to the concrete state
with users uA and uB. -/
theorem C3_disconnect_removes_both_witness :
    (disconnect ⟨some "uA", some "uB"⟩ dbConn).1 = 200 ∧
    ((disconnect ⟨some "uA", some "uB"⟩ dbConn).2.users "uA").map
      (fun d => d.connections.any (fun c => c.uid == "uB")) = some false ∧
    ((disconnect ⟨some "uA", some "uB"⟩ dbConn).2.users "uB").map
      (fun d => d.connections.any (fun c => c.uid == "uA")) = some false :=
  C3_disconnect_removes_both dbConn "uA" "uB" uAnn uBob (by decide) (by decide)
    (by decide) (by decide)

/-- Membership facts for the ArrayUnion pair applied by the accept
branch of respond_project_invitation: afterwards the uid is in teamIds
and some team entry carries it. -/
theorem acceptTeam_mark (p : Project) (m : Member) (u : String) (hmu : m.uid = u) :
    (u ∈ (if u ∈ p.teamIds then p.teamIds else p.teamIds ++ [u])) ∧
    ∃ x ∈ (if m ∈ p.team then p.team else p.team ++ [m]), x.uid = u := by
  refine ⟨?_, ?_⟩
  · split
    · assumption
    · simp
  · split
    · rename_i ht
      exact ⟨m, ht, hmu⟩
    · exact ⟨m, by simp, hmu⟩

/-- C5 counterexample: with the invitation notification present but the
referenced project document absent, the accept deletes the notification
and then fails with 500; no teamIds or team update happens, so the
claim as stated fails at this input. -/
theorem C5_invitation_counterexample :
    dbNoProj.notifs "u1" "inv1" = some invNotif1 ∧
    invNotif1.projectId = some "p1" ∧
    dbNoProj.projects "p1" = none ∧
    (respond_project_invitation ⟨some "inv1", some "accepted", some "u1"⟩ dbNoProj).1.status = 500 ∧
    (respond_project_invitation ⟨some "inv1", some "accepted", some "u1"⟩ dbNoProj).2.projects "p1" = none ∧
    (respond_project_invitation ⟨some "inv1", some "accepted", some "u1"⟩ dbNoProj).2.notifs "u1" "inv1" = none := by
  refine ⟨rfl, rfl, rfl, rfl, rfl, rfl⟩

/-- C5 amended: when the invitation notification exists, carries a
projectId, and the referenced project document exists, accepting adds
the uid to teamIds, adds a member summary with that uid to team, and
deletes the invitation notification. -/
theorem C5_invitation_accept_updates_team (db : DB) (invId uid pid : String)
    (nd : Notif) (p : Project)
    (hinv : invId ≠ "") (huid : uid ≠ "")
    (hn : db.notifs uid invId = some nd)
    (hpid : nd.projectId = some pid)
    (hp : db.projects pid = some p) :
    (respond_project_invitation ⟨some invId, some "accepted", some uid⟩ db).1.status = 200 ∧
    ((respond_project_invitation ⟨some invId, some "accepted", some uid⟩ db).2.projects pid).map
      (fun q => decide (uid ∈ q.teamIds) && q.team.any (fun m => m.uid == uid)) = some true ∧
    (respond_project_invitation ⟨some invId, some "accepted", some uid⟩ db).2.notifs uid invId = none := by
  have hacc : isTruthy (some "accepted") = true := by decide
  have hie : isTruthy (some invId) = true := by simp [isTruthy, isEmpty_false_of_ne hinv]
  have hue : isTruthy (some uid) = true := by simp [isTruthy, isEmpty_false_of_ne huid]
  rcases hud : db.users uid with _ | ad
  · refine ⟨?_, ?_, ?_⟩ <;>
      simp [respond_project_invitation, hacc, hie, hue, hn, hpid, hp, hud, fupd, optStr]
    exact acceptTeam_mark p ⟨uid, none, none⟩ uid rfl
  · refine ⟨?_, ?_, ?_⟩ <;>
      simp [respond_project_invitation, hacc, hie, hue, hn, hpid, hp, hud, fupd, optStr]
    exact acceptTeam_mark p ⟨uid, some ad.firstName, some ad.surname⟩ uid rfl

/-- C5 witness: the amended theorem applied to the concrete state with
the empty project p1 and the invitation inv1 for user u1. -/
theorem C5_invitation_accept_updates_team_witness :
    (respond_project_invitation ⟨some "inv1", some "accepted", some "u1"⟩ dbInv).1.status = 200 ∧
    ((respond_project_invitation ⟨some "inv1", some "accepted", some "u1"⟩ dbInv).2.projects "p1").map
      (fun q => decide ("u1" ∈ q.teamIds) && q.team.any (fun m => m.uid == "u1")) = some true ∧
    (respond_project_invitation ⟨some "inv1", some "accepted", some "u1"⟩ dbInv).2.notifs "u1" "inv1" = none :=
  C5_invitation_accept_updates_team dbInv "inv1" "u1" "p1" invNotif1 projP
    (by decide) (by decide) (by decide) (by decide) (by decide)

/-- TeamInv is preserved by the ArrayUnion pair of the invitation
accept: team gains the member unless already present, teamIds gains its
uid unless already present. -/
theorem TeamInv_accept (p : Project) (m : Member) (u : String) (hu : m.uid = u)
    (h : TeamInv p) :
    TeamInv { p with
      team := if m ∈ p.team then p.team else p.team ++ [m],
      teamIds := if u ∈ p.teamIds then p.teamIds else p.teamIds ++ [u] } := by
  subst hu
  obtain ⟨hnd, h1, h2⟩ := h
  by_cases ht : m ∈ p.team <;> by_cases hm : m.uid ∈ p.teamIds
  · exact ⟨by simpa [ht, hm] using hnd, by simpa [ht, hm] using h1,
      by simpa [ht, hm] using h2⟩
  · exact absurd (h2 m.uid (List.mem_map_of_mem Member.uid ht)) hm
  · refine ⟨by simpa [ht, hm] using hnd, ?_, ?_⟩
    · intro x hx
      simp only [ht, hm, if_neg, ite_true, ite_false, TeamInv] at hx ⊢
      simp only [List.map_append, List.mem_append]
      exact Or.inl (h1 x hx)
    · intro x hx
      simp only [ht, hm, ite_true, ite_false, List.map_append, List.mem_append,
        List.map_cons, List.map_nil, List.mem_singleton] at hx ⊢
      rcases hx with hx | hx
      · exact h2 x hx
      · subst hx
        exact hm
  · refine ⟨?_, ?_, ?_⟩
    · simp only [ht, hm, ite_false]
      simp [List.nodup_append, hnd, hm]
    · intro x hx
      simp only [ht, hm, ite_false, List.map_append, List.mem_append,
        List.map_cons, List.map_nil, List.mem_singleton] at hx ⊢
      rcases hx with hx | hx
      · exact Or.inl (h1 x hx)
      · subst hx
        exact Or.inr rfl
    · intro x hx
      simp only [ht, hm, ite_false, List.map_append, List.mem_append,
        List.map_cons, List.map_nil, List.mem_singleton] at hx ⊢
      rcases hx with hx | hx
      · exact Or.inl (h2 x hx)
      · subst hx
        exact Or.inr rfl

/-- TeamInv is preserved by the symmetric filter pair used by
leave_project and remove_collaborator. -/
theorem TeamInv_remove (p : Project) (u : String) (h : TeamInv p) :
    TeamInv { p with
      team := p.team.filter (fun m => m.uid != u),
      teamIds := p.teamIds.filter (fun x => x != u) } := by
  obtain ⟨hnd, h1, h2⟩ := h
  refine ⟨hnd.filter _, ?_, ?_⟩
  · intro x hx
    simp only [List.mem_filter, bne_iff_ne, ne_eq] at hx
    obtain ⟨hx1, hx2⟩ := hx
    obtain ⟨m, hmem, hmu⟩ := List.mem_map.mp (h1 x hx1)
    exact List.mem_map.mpr ⟨m, List.mem_filter.mpr ⟨hmem, by simp [hmu, hx2]⟩, hmu⟩
  · intro x hx
    obtain ⟨m, hmem, hmu⟩ := List.mem_map.mp hx
    rw [List.mem_filter] at hmem
    refine List.mem_filter.mpr ⟨h2 x (List.mem_map.mpr ⟨m, hmem.1, hmu⟩), ?_⟩
    have h3 := hmem.2
    simpa [hmu] using h3

/-- TeamInv holds for a project with empty team and teamIds, as written
by create_project. -/
theorem TeamInv_nil (pn ds : String) (d : Date) (ow : String) :
    TeamInv
      { projectName := pn, description := ds, deadline := d, ownerId := ow,
        team := [], teamIds := [], status := none } := by
  refine ⟨List.nodup_nil, ?_, ?_⟩ <;> simp

/-- C6 amended: the four team mutators, project creation, invitation
accept, leave-project and remove-collaborator, update team and teamIds
together and preserve the invariant that teamIds is duplicate-free and
holds exactly the set of uids occurring in team. -/
theorem C6_team_lockstep_set (parseDate : String → Option Date) (freshPid : String)
    (cpIn : CreateProjIn) (rpiIn : RespInvIn) (lvIn : LeaveProjIn) (rcIn : RemoveCollabIn)
    (db : DB) (pid : String)
    (hpre : ∀ q, db.projects pid = some q → TeamInv q) :
    (∀ q, (create_project parseDate freshPid cpIn db).2.projects pid = some q → TeamInv q) ∧
    (∀ q, (respond_project_invitation rpiIn db).2.projects pid = some q → TeamInv q) ∧
    (∀ q, (leave_project lvIn db).2.projects pid = some q → TeamInv q) ∧
    (∀ q, (remove_collaborator rcIn db).2.projects pid = some q → TeamInv q) := by
  refine ⟨?_, ?_, ?_, ?_⟩
  · intro q hq
    cases hg : (isTruthy cpIn.projectName && isTruthy cpIn.description
        && isTruthy cpIn.ownerId && isTruthy cpIn.deadline) with
    | false =>
      simp [create_project, hg] at hq
      exact hpre q hq
    | true =>
      rcases hd : parseDate (cpIn.deadline.getD "") with _ | d
      · simp [create_project, hg, hd] at hq
        exact hpre q hq
      · simp [create_project, hg, hd, fupd] at hq
        by_cases hpp : pid = freshPid
        · rw [if_pos hpp] at hq
          obtain rfl := Option.some.inj hq
          exact TeamInv_nil _ _ _ _
        · rw [if_neg hpp] at hq
          exact hpre q hq
  · intro q hq
    cases hg : (isTruthy rpiIn.invitationId && isTruthy rpiIn.action && isTruthy rpiIn.userId) with
    | false =>
      simp [respond_project_invitation, hg] at hq
      exact hpre q hq
    | true =>
      cases hv : ((rpiIn.action.getD "") == "accepted" || (rpiIn.action.getD "") == "declined") with
      | false =>
        simp [respond_project_invitation, hg, hv] at hq
        exact hpre q hq
      | true =>
        rcases hnd : db.notifs (rpiIn.userId.getD "") (rpiIn.invitationId.getD "") with _ | nd
        · simp [respond_project_invitation, hg, hv, hnd] at hq
          exact hpre q hq
        · cases ha : ((rpiIn.action.getD "") == "accepted") with
          | false =>
            have hdec : ((rpiIn.action.getD "") == "declined") = true := by
              simpa [ha] using hv
            simp [respond_project_invitation, hg, ha, hdec, hnd] at hq
            exact hpre q hq
          | true =>
            rcases hpid : nd.projectId with _ | pid0
            · simp [respond_project_invitation, hg, hnd, ha, hpid] at hq
              exact hpre q hq
            · rcases hproj : db.projects pid0 with _ | p
              · rcases hud : db.users (rpiIn.userId.getD "") with _ | ad <;>
                  simp [respond_project_invitation, hg, hnd, ha, hpid, hproj, hud] at hq <;>
                  exact hpre q hq
              · rcases hud : db.users (rpiIn.userId.getD "") with _ | ad <;>
                  simp [respond_project_invitation, hg, hnd, ha, hpid, hproj, hud, fupd] at hq <;>
                  by_cases hpp : pid = pid0
                · rw [if_pos hpp] at hq
                  obtain rfl := Option.some.inj hq
                  exact TeamInv_accept p _ _ rfl (hpre p (by rw [hpp]; exact hproj))
                · rw [if_neg hpp] at hq
                  exact hpre q hq
                · rw [if_pos hpp] at hq
                  obtain rfl := Option.some.inj hq
                  exact TeamInv_accept p _ _ rfl (hpre p (by rw [hpp]; exact hproj))
                · rw [if_neg hpp] at hq
                  exact hpre q hq
  · intro q hq
    cases hg : (isTruthy lvIn.projectId && isTruthy lvIn.userId) with
    | false =>
      simp [leave_project, hg] at hq
      exact hpre q hq
    | true =>
      rcases hproj : db.projects (lvIn.projectId.getD "") with _ | p
      · simp [leave_project, hg, hproj] at hq
        exact hpre q hq
      · cases ho : ((lvIn.userId.getD "") == p.ownerId) with
        | true =>
          simp [leave_project, hg, hproj, ho] at hq
          exact hpre q hq
        | false =>
          simp [leave_project, hg, hproj, ho, fupd] at hq
          by_cases hpp : pid = lvIn.projectId.getD ""
          · rw [if_pos hpp] at hq
            obtain rfl := Option.some.inj hq
            exact TeamInv_remove p _ (hpre p (by rw [hpp]; exact hproj))
          · rw [if_neg hpp] at hq
            exact hpre q hq
  · intro q hq
    cases hg : (isTruthy rcIn.projectId && isTruthy rcIn.collaboratorId && isTruthy rcIn.ownerId) with
    | false =>
      simp [remove_collaborator, hg] at hq
      exact hpre q hq
    | true =>
      rcases hproj : db.projects (rcIn.projectId.getD "") with _ | p
      · simp [remove_collaborator, hg, hproj] at hq
        exact hpre q hq
      · simp [remove_collaborator, hg, hproj, fupd] at hq
        by_cases hpp : pid = rcIn.projectId.getD ""
        · rw [if_pos hpp] at hq
          obtain rfl := Option.some.inj hq
          exact TeamInv_remove p _ (hpre p (by rw [hpp]; exact hproj))
        · rw [if_neg hpp] at hq
          exact hpre q hq

/-- C6 counterexample: the project p1 satisfies the literal lockstep
equality teamIds = map uid team before the accept; accepting a second
invitation while the user document carries a renamed summary appends a
second team entry for u1 while teamIds is unchanged, so the equality
fails afterwards even though the call answers 200. -/
theorem C6_lockstep_counterexample :
    (dbStale.projects "p1").map (fun p => p.teamIds == p.team.map Member.uid) = some true ∧
    (respond_project_invitation ⟨some "inv1", some "accepted", some "u1"⟩ dbStale).1.status = 200 ∧
    ((respond_project_invitation ⟨some "inv1", some "accepted", some "u1"⟩ dbStale).2.projects "p1").map
      (fun p => p.teamIds == p.team.map Member.uid) = some false := by
  refine ⟨rfl, rfl, rfl⟩

/-- C6 witness: the set-level invariant theorem applied to the concrete
stale-summary state, yielding the invariant for the project produced by
the accept. -/
theorem C6_team_lockstep_set_witness :
    TeamInv ⟨"P", "D", (2024, 1, 1), "own",
      [⟨"u1", some "Ann", some "Bee"⟩, ⟨"u1", some "Cid", some "Bee"⟩], ["u1"], none⟩ := by
  have hpre : ∀ q, dbStale.projects "p1" = some q → TeamInv q := by
    intro q hq
    obtain rfl := Option.some.inj hq
    decide
  exact (C6_team_lockstep_set (fun _ => none) "f" ⟨none, none, false, none, none⟩
    ⟨some "inv1", some "accepted", some "u1"⟩ ⟨none, none⟩ ⟨none, none, none⟩
    dbStale "p1" hpre).2.1 _ rfl

/-- The status fan-out of update_project never writes under the
requester uid. -/
theorem update_project_excludes_requester (parseDate : String → Option Date) (db : DB)
    (upIn : UpdProjIn) (r : String) (hr : upIn.requesterId = some r) :
    (update_project parseDate upIn db).1.writes.all (fun w => w.1 != r) = true := by
  cases hg : isTruthy upIn.projectId with
  | false => simp [update_project, hg]
  | true =>
    rcases hproj : db.projects (upIn.projectId.getD "") with _ | curr
    · simp [update_project, hg, hproj]
    · cases hd : isTruthy upIn.deadline with
      | true =>
        rcases hpd : parseDate (upIn.deadline.getD "") with _ | d
        · simp [update_project, hg, hproj, hd, hpd]
        · cases hs : (isTruthy upIn.status && isTruthy upIn.requesterId) with
          | false =>
            simp [update_project, hg, hproj, hd, hpd, hs]
          | true =>
            have hs' := hs
            rw [Bool.and_eq_true] at hs'
            obtain ⟨hs1, hs2⟩ := hs'
            rw [hr] at hs2
            simp [update_project, hg, hproj, hd, hpd, hr, hs1, hs2]
            intro a b x hmem hxr hxa hnb
            subst hxa
            exact hxr
      | false =>
        cases hu : (isTruthy upIn.projectName || isTruthy upIn.description
            || upIn.tasksProvided || isTruthy upIn.status) with
        | false =>
          simp [update_project, hg, hproj, hd, hu]
        | true =>
          cases hs : (isTruthy upIn.status && isTruthy upIn.requesterId) with
          | false => simp [update_project, hg, hproj, hd, hu, hs]
          | true =>
            have hs' := hs
            rw [Bool.and_eq_true] at hs'
            obtain ⟨hs1, hs2⟩ := hs'
            rw [hr] at hs2
            simp [update_project, hg, hproj, hd, hu, hs1, hs2, hr]
            intro a b x hmem hxr hxa hnb
            subst hxa
            exact hxr

/-- The leave fan-out of leave_project never writes under the uid of
the leaving user. -/
theorem leave_project_excludes_leaver (db : DB) (lvIn : LeaveProjIn) (u : String)
    (hus : lvIn.userId = some u) :
    (leave_project lvIn db).1.writes.all (fun w => w.1 != u) = true := by
  cases hg : (isTruthy lvIn.projectId && isTruthy lvIn.userId) with
  | false => simp [leave_project, hg]
  | true =>
    rcases hproj : db.projects (lvIn.projectId.getD "") with _ | p
    · simp [leave_project, hg, hproj]
    · cases ho : ((lvIn.userId.getD "") == p.ownerId) with
      | true => simp [leave_project, hg, hproj, ho]
      | false =>
        have hgu : lvIn.userId.getD "" = u := by rw [hus]; rfl
        rw [hgu] at ho
        have hg' := hg
        rw [Bool.and_eq_true] at hg'
        obtain ⟨hg1, hg2⟩ := hg'
        rw [hus] at hg2
        simp [leave_project, hg1, hg2, hproj, ho, hus, hgu]
        rintro a (⟨hne, rfl⟩ | ⟨hmem, hau⟩)
        · intro hc
          rw [hc] at ho
          simp at ho
        · exact hau

/-- The comment fan-out of add_comment never writes under the uid of
the commenting user. -/
theorem add_comment_excludes_commenter (db : DB) (acIn : AddCommentIn) (v : String)
    (hv : acIn.userId = some v) :
    (add_comment acIn db).writes.all (fun w => w.1 != v) = true := by
  cases hg : (isTruthy acIn.projectId && isTruthy acIn.userId && isTruthy acIn.commentText) with
  | false => simp [add_comment, hg]
  | true =>
    rcases hproj : db.projects (acIn.projectId.getD "") with _ | p
    · simp [add_comment, hg, hproj]
    · have hg' := hg
      rw [Bool.and_eq_true, Bool.and_eq_true] at hg'
      obtain ⟨⟨hg1, hg2⟩, hg3⟩ := hg'
      rw [hv] at hg2
      simp [add_comment, hg1, hg2, hg3, hproj, hv]
      intro a b x hmem hxv hxa hnb
      subst hxa
      exact hxv

/-- C7: in every modelled notification fan-out, project status update,
leave-project and add-comment, the acting user is excluded from the
recipients: no write of the fan-out targets the acting uid, even when
that uid occurs in teamIds or as ownerId. -/
theorem C7_fanout_excludes_actor (parseDate : String → Option Date) (db : DB)
    (upIn : UpdProjIn) (lvIn : LeaveProjIn) (acIn : AddCommentIn) (r u v : String) :
    (upIn.requesterId = some r →
      (update_project parseDate upIn db).1.writes.all (fun w => w.1 != r) = true) ∧
    (lvIn.userId = some u →
      (leave_project lvIn db).1.writes.all (fun w => w.1 != u) = true) ∧
    (acIn.userId = some v →
      (add_comment acIn db).writes.all (fun w => w.1 != v) = true) :=
  ⟨update_project_excludes_requester parseDate db upIn r,
   leave_project_excludes_leaver db lvIn u,
   add_comment_excludes_commenter db acIn v⟩

/-- C7 witness: the exclusion theorem at the concrete project p1 whose
team and recipients include the acting user v, for all three
fan-outs. -/
theorem C7_fanout_excludes_actor_witness :
    (update_project (fun _ => some (2024, 1, 1))
        ⟨some "p1", none, none, false, none, some "Done", some "v"⟩ db7).1.writes.all
      (fun w => w.1 != "v") = true ∧
    (leave_project ⟨some "p1", some "v"⟩ db7).1.writes.all (fun w => w.1 != "v") = true ∧
    (add_comment ⟨some "p1", some "v", some "hi"⟩ db7).writes.all (fun w => w.1 != "v") = true := by
  have h := C7_fanout_excludes_actor (fun _ => some (2024, 1, 1)) db7
    ⟨some "p1", none, none, false, none, some "Done", some "v"⟩
    ⟨some "p1", some "v"⟩ ⟨some "p1", some "v", some "hi"⟩ "v" "v" "v"
  exact ⟨h.1 rfl, h.2.1 rfl, h.2.2 rfl⟩
